import Mathlib

/-!
Verification of the canned-reply test DNS server `examples/nsd-test/ldns-testns.c`
(ldns repository) against its natural-language specification.

The C program is shallowly embedded: packets, records and the parser state
become Lean structures, the linked list of entries becomes `List Entry`,
C string scanning becomes functions on `List Char`, and the functions of the
external ldns codec library (which are not part of the verified source file)
are either parameters (`Codec`) or small functions modelled from the spec,
marked as such in their doc comments.
-/

namespace LdnsTestns

/-- Transport a query arrived on; `transport_any` is the wildcard used in
MATCH lines (`enum transport_type` in the source). -/
inductive TransportType where
  | transport_any : TransportType
  | transport_udp : TransportType
  | transport_tcp : TransportType
deriving Repr, DecidableEq

/-- A domain name, as a list of labels, each label a list of characters.
Stands for the external codec's `ldns_rdf` dname values. -/
abbrev Dname : Type := List (List Char)

/-- A resource record as far as this program observes it: owner name, record
type, ttl, and the list of rdata fields, numeric fields stored as `Nat`
(stands for the external codec's `ldns_rr`). -/
structure Rr where
  owner : Dname
  rrtype : Nat
  ttl : Nat
  rdfs : List Nat
deriving Repr, DecidableEq

/-- A DNS packet as far as this program observes it (stands for the external
codec's `ldns_pkt`): header id, opcode, rcode, the six-plus-one boolean flags
set by REPLY lines, and the four record sections. -/
structure Pkt where
  id : Nat
  opcode : Nat
  rcode : Nat
  qr : Bool
  aa : Bool
  tc : Bool
  rd : Bool
  cd : Bool
  ra : Bool
  ad : Bool
  question : List Rr
  answer : List Rr
  authority : List Rr
  additional : List Rr
deriving Repr, DecidableEq

/-- Modelled from the spec: the external codec's `ldns_pkt_new`, "an empty
canned reply message" — all header fields zero/false, all sections empty. -/
def ldns_pkt_new : Pkt :=
  { id := 0, opcode := 0, rcode := 0,
    qr := false, aa := false, tc := false, rd := false,
    cd := false, ra := false, ad := false,
    question := [], answer := [], authority := [], additional := [] }

/-- `ldns_pkt_clone`: in the functional embedding a deep clone is the value
itself; mutating the clone is a functional update that leaves the original
value untouched. -/
def ldns_pkt_clone (p : Pkt) : Pkt := p

/-- `ldns_pkt_set_id` as a functional update. -/
def ldns_pkt_set_id (p : Pkt) (i : Nat) : Pkt := { p with id := i }

/-- One canned rule from the data file (`struct entry` in the source); the
`next` pointer becomes list structure. -/
structure Entry where
  match_opcode : Bool
  match_qtype : Bool
  match_qname : Bool
  match_serial : Bool
  ixfr_soa_serial : Nat
  match_transport : TransportType
  reply : Pkt
  copy_id : Bool
deriving Repr, DecidableEq

/-- `new_entry()`: all predicates inactive, serial 0, transport wildcard,
empty canned reply, copy_id off. -/
def new_entry : Entry :=
  { match_opcode := false, match_qtype := false, match_qname := false,
    match_serial := false, ixfr_soa_serial := 0,
    match_transport := .transport_any,
    reply := ldns_pkt_new, copy_id := false }

/-- ASCII lower-casing of one character, as C `tolower` acts on ASCII. -/
def lowc (c : Char) : Char :=
  if 'A' ≤ c ∧ c ≤ 'Z' then Char.ofNat (c.toNat + 32) else c

/-- A domain name with every label lower-cased. -/
def lowerDname (d : Dname) : Dname := d.map (fun l => l.map lowc)

/-- Case-insensitive domain-name equality (the spec-side notion used by the
claims about `qname` matching). -/
def dname_ci_eq (a b : Dname) : Bool := decide (lowerDname a = lowerDname b)

/-- Modelled from the spec: the external codec's `ldns_dname_compare`,
specified only through its zero/nonzero result — zero exactly on
case-insensitive domain-name equality. -/
def ldns_dname_compare (a b : Dname) : Int :=
  if lowerDname a = lowerDname b then 0 else 1

/-- `get_qtype`: record type of the first question record, 0 when the
question section has no first record. -/
def get_qtype (p : Pkt) : Nat :=
  match p.question.head? with
  | none => 0
  | some rr => rr.rrtype

/-- `get_owner`: owner name of the first question record, `none` (C `NULL`)
when the question section has no first record. -/
def get_owner (p : Pkt) : Option Dname :=
  match p.question.head? with
  | none => none
  | some rr => some rr.owner

/-- `get_serial`: the SOA serial taken from the first record of the
authority section — rdata field index 2 — and 0 when that section has no
first record or that record has no rdata field 2.  `ldns_rdf2native_int32`
is modelled as reading the stored numeric value. -/
def get_serial (p : Pkt) : Nat :=
  match p.authority.head? with
  | none => 0
  | some rr =>
    match rr.rdfs.get? 2 with
    | none => 0
    | some v => v

/-- The skip test of the qname branch of `find_match`:
`!get_owner(query) || !get_owner(reply) || ldns_dname_compare(...) != 0`. -/
def qname_skip (q r : Pkt) : Bool :=
  match get_owner q, get_owner r with
  | some a, some b => ldns_dname_compare a b != 0
  | _, _ => true

/-- `find_match`: walk the entry list in order; each active predicate that
fails skips the entry (the C `continue`); the first entry no predicate
skips is returned. -/
def find_match : List Entry → Pkt → TransportType → Option Entry
  | [], _, _ => none
  | p :: rest, query_pkt, transport =>
    if p.match_opcode && (query_pkt.opcode != p.reply.opcode) then
      find_match rest query_pkt transport
    else if p.match_qtype && (get_qtype query_pkt != get_qtype p.reply) then
      find_match rest query_pkt transport
    else if p.match_qname && qname_skip query_pkt p.reply then
      find_match rest query_pkt transport
    else if p.match_serial && (get_serial p.reply != p.ixfr_soa_serial) then
      find_match rest query_pkt transport
    else if (p.match_transport != .transport_any) && (p.match_transport != transport) then
      find_match rest query_pkt transport
    else
      some p

/-- The opcode conjunct of an entry's match predicate: vacuously true when
inactive, else inbound opcode equals the canned reply's opcode. -/
def match_opcode_cond (e : Entry) (q : Pkt) : Bool :=
  !e.match_opcode || (q.opcode == e.reply.opcode)

/-- The qtype conjunct: vacuously true when inactive, else first-question
record types equal (an absent question counts as type 0). -/
def match_qtype_cond (e : Entry) (q : Pkt) : Bool :=
  !e.match_qtype || (get_qtype q == get_qtype e.reply)

/-- The qname conjunct: vacuously true when inactive, else both sides must
have a first question and the owner names must compare equal. -/
def match_qname_cond (e : Entry) (q : Pkt) : Bool :=
  !e.match_qname || !(qname_skip q e.reply)

/-- The serial conjunct: vacuously true when inactive, else the canned
reply's authority SOA serial equals the stored literal.  The inbound message
`q` is taken as an argument but, exactly as in the source, never read. -/
def match_serial_cond (e : Entry) (_q : Pkt) : Bool :=
  !e.match_serial || (get_serial e.reply == e.ixfr_soa_serial)

/-- The transport conjunct: `transport_any` always passes, otherwise the
stored transport must equal the inbound one. -/
def match_transport_cond (e : Entry) (t : TransportType) : Bool :=
  (e.match_transport == .transport_any) || (e.match_transport == t)

/-- Conjunction of the five predicate conjuncts: "every active predicate
holds, inactive predicates vacuously true". -/
def entryMatches (e : Entry) (q : Pkt) (t : TransportType) : Bool :=
  match_opcode_cond e q && match_qtype_cond e q && match_qname_cond e q &&
    match_serial_cond e q && match_transport_cond e t

/-- `get_answer`: find the first matching entry; on a match clone its canned
reply and, when `copy_id` is set, overwrite the clone's id with the inbound
id; `none` when nothing matches. -/
def get_answer (entries : List Entry) (query_pkt : Pkt) (transport : TransportType) :
    Option Pkt :=
  match find_match entries query_pkt transport with
  | none => none
  | some m =>
    let answer_pkt := ldns_pkt_clone m.reply
    some (if m.copy_id then ldns_pkt_set_id answer_pkt query_pkt.id else answer_pkt)

/-! ### Grammar primitives -/

/-- `isendline`: comment markers, newline, and the NUL terminator. -/
def isendline (c : Char) : Bool :=
  c == ';' || c == '#' || c == '\n' || c == Char.ofNat 0

/-- End-of-content test at a cursor; an empty remainder is the NUL. -/
def isendl : List Char → Bool
  | [] => true
  | c :: _ => isendline c

/-- C `isspace` on the ASCII range. -/
def isspaceC (c : Char) : Bool :=
  c == ' ' || c == '\t' || c == '\n' || c == Char.ofNat 11 ||
    c == Char.ofNat 12 || c == '\r'

/-- `strncmp(s, kw, strlen kw) == 0`: the keyword is a prefix of the cursor. -/
def strncmp_pfx : List Char → List Char → Bool
  | [], _ => true
  | _ :: _, [] => false
  | k :: ks, s :: ss => k == s && strncmp_pfx ks ss

/-- `str_keyword`: case-sensitive keyword match at the cursor; on success
the cursor is advanced past the keyword and any following whitespace, on
failure the cursor is untouched (`none`). -/
def str_keyword (s kw : List Char) : Option (List Char) :=
  if strncmp_pfx kw s then some ((s.drop kw.length).dropWhile isspaceC) else none

/-- Decimal digit string to integer. -/
def digitsToInt (ds : List Char) : Int :=
  ds.foldl (fun a c => a * 10 + ((c.toNat - 48 : Nat) : Int)) 0

/-- C `strtol(str, &end, 10)`: skip whitespace, optional sign, digits;
yields the value and the final cursor (the original cursor when no digit
was consumed). -/
def strtol10 (s : List Char) : Int × List Char :=
  let s1 := s.dropWhile isspaceC
  match s1 with
  | '-' :: r =>
    if (r.takeWhile Char.isDigit).isEmpty then (0, s)
    else (-(digitsToInt (r.takeWhile Char.isDigit)), r.dropWhile Char.isDigit)
  | '+' :: r =>
    if (r.takeWhile Char.isDigit).isEmpty then (0, s)
    else (digitsToInt (r.takeWhile Char.isDigit), r.dropWhile Char.isDigit)
  | _ =>
    if (s1.takeWhile Char.isDigit).isEmpty then (0, s)
    else (digitsToInt (s1.takeWhile Char.isDigit), s1.dropWhile Char.isDigit)

/-- C `atoi`. -/
def atoiInt (s : List Char) : Int := (strtol10 s).1

/-- The C cast `(uint16_t)` of an `int` value (two's complement wraparound). -/
def u16cast (i : Int) : Nat := (i % 65536).toNat

/-- The C cast `(uint32_t)` of a `long` value (two's complement wraparound). -/
def u32cast (i : Int) : Nat := (i % 4294967296).toNat

/-! ### Reply-header setters (external codec accessors, trivial updates) -/

def ldns_pkt_set_opcode (p : Pkt) (o : Nat) : Pkt := { p with opcode := o }

def ldns_pkt_set_rcode (p : Pkt) (r : Nat) : Pkt := { p with rcode := r }

def ldns_pkt_set_qr (p : Pkt) (b : Bool) : Pkt := { p with qr := b }

def ldns_pkt_set_aa (p : Pkt) (b : Bool) : Pkt := { p with aa := b }

def ldns_pkt_set_tc (p : Pkt) (b : Bool) : Pkt := { p with tc := b }

def ldns_pkt_set_rd (p : Pkt) (b : Bool) : Pkt := { p with rd := b }

def ldns_pkt_set_cd (p : Pkt) (b : Bool) : Pkt := { p with cd := b }

def ldns_pkt_set_ra (p : Pkt) (b : Bool) : Pkt := { p with ra := b }

def ldns_pkt_set_ad (p : Pkt) (b : Bool) : Pkt := { p with ad := b }

/-! ### Directive interpreters -/

/-- `matchline`, fuelled: each loop iteration either returns or consumes at
least one character, so fuel `length + 1` never runs out; exhausted fuel
reports an error (unreachable for the wrapper below). -/
def matchlineF (fuel : Nat) (parse : List Char) (e : Entry) : Except (List Char) Entry :=
  match fuel with
  | 0 => .error parse
  | fuel + 1 =>
    match parse with
    | [] => .ok e
    | c :: _ =>
      if isendline c then .ok e
      else match str_keyword parse "opcode".toList with
      | some rest => matchlineF fuel rest { e with match_opcode := true }
      | none => match str_keyword parse "qtype".toList with
      | some rest => matchlineF fuel rest { e with match_qtype := true }
      | none => match str_keyword parse "qname".toList with
      | some rest => matchlineF fuel rest { e with match_qname := true }
      | none => match str_keyword parse "UDP".toList with
      | some rest => matchlineF fuel rest { e with match_transport := .transport_udp }
      | none => match str_keyword parse "TCP".toList with
      | some rest => matchlineF fuel rest { e with match_transport := .transport_tcp }
      | none => match str_keyword parse "serial".toList with
      | some rest =>
        match rest with
        | '=' :: r2 =>
          matchlineF fuel (((strtol10 r2).2).dropWhile isspaceC)
            { e with match_serial := true, ixfr_soa_serial := u32cast (strtol10 r2).1 }
        | ':' :: r2 =>
          matchlineF fuel (((strtol10 r2).2).dropWhile isspaceC)
            { e with match_serial := true, ixfr_soa_serial := u32cast (strtol10 r2).1 }
        | _ => .error parse
      | none => .error parse

/-- `matchline`: set the predicates named on a MATCH line, fatal on an
unrecognized token. -/
def matchline (parse : List Char) (e : Entry) : Except (List Char) Entry :=
  matchlineF (parse.length + 1) parse e

/-- `replyline`, fuelled like `matchlineF`: opcode, rcode and flag keywords
applied to the canned reply's header. -/
def replylineF (fuel : Nat) (parse : List Char) (e : Entry) : Except (List Char) Entry :=
  match fuel with
  | 0 => .error parse
  | fuel + 1 =>
    match parse with
    | [] => .ok e
    | c :: _ =>
      if isendline c then .ok e
      else match str_keyword parse "QUERY".toList with
      | some rest => replylineF fuel rest { e with reply := ldns_pkt_set_opcode e.reply 0 }
      | none => match str_keyword parse "IQUERY".toList with
      | some rest => replylineF fuel rest { e with reply := ldns_pkt_set_opcode e.reply 1 }
      | none => match str_keyword parse "STATUS".toList with
      | some rest => replylineF fuel rest { e with reply := ldns_pkt_set_opcode e.reply 2 }
      | none => match str_keyword parse "NOTIFY".toList with
      | some rest => replylineF fuel rest { e with reply := ldns_pkt_set_opcode e.reply 4 }
      | none => match str_keyword parse "UPDATE".toList with
      | some rest => replylineF fuel rest { e with reply := ldns_pkt_set_opcode e.reply 5 }
      | none => match str_keyword parse "NOERROR".toList with
      | some rest => replylineF fuel rest { e with reply := ldns_pkt_set_rcode e.reply 0 }
      | none => match str_keyword parse "FORMERR".toList with
      | some rest => replylineF fuel rest { e with reply := ldns_pkt_set_rcode e.reply 1 }
      | none => match str_keyword parse "SERVFAIL".toList with
      | some rest => replylineF fuel rest { e with reply := ldns_pkt_set_rcode e.reply 2 }
      | none => match str_keyword parse "NXDOMAIN".toList with
      | some rest => replylineF fuel rest { e with reply := ldns_pkt_set_rcode e.reply 3 }
      | none => match str_keyword parse "NOTIMPL".toList with
      | some rest => replylineF fuel rest { e with reply := ldns_pkt_set_rcode e.reply 4 }
      | none => match str_keyword parse "YXDOMAIN".toList with
      | some rest => replylineF fuel rest { e with reply := ldns_pkt_set_rcode e.reply 6 }
      | none => match str_keyword parse "YXRRSET".toList with
      | some rest => replylineF fuel rest { e with reply := ldns_pkt_set_rcode e.reply 7 }
      | none => match str_keyword parse "NXRRSET".toList with
      | some rest => replylineF fuel rest { e with reply := ldns_pkt_set_rcode e.reply 8 }
      | none => match str_keyword parse "NOTAUTH".toList with
      | some rest => replylineF fuel rest { e with reply := ldns_pkt_set_rcode e.reply 9 }
      | none => match str_keyword parse "NOTZONE".toList with
      | some rest => replylineF fuel rest { e with reply := ldns_pkt_set_rcode e.reply 10 }
      | none => match str_keyword parse "QR".toList with
      | some rest => replylineF fuel rest { e with reply := ldns_pkt_set_qr e.reply true }
      | none => match str_keyword parse "AA".toList with
      | some rest => replylineF fuel rest { e with reply := ldns_pkt_set_aa e.reply true }
      | none => match str_keyword parse "TC".toList with
      | some rest => replylineF fuel rest { e with reply := ldns_pkt_set_tc e.reply true }
      | none => match str_keyword parse "RD".toList with
      | some rest => replylineF fuel rest { e with reply := ldns_pkt_set_rd e.reply true }
      | none => match str_keyword parse "CD".toList with
      | some rest => replylineF fuel rest { e with reply := ldns_pkt_set_cd e.reply true }
      | none => match str_keyword parse "RA".toList with
      | some rest => replylineF fuel rest { e with reply := ldns_pkt_set_ra e.reply true }
      | none => match str_keyword parse "AD".toList with
      | some rest => replylineF fuel rest { e with reply := ldns_pkt_set_ad e.reply true }
      | none => .error parse

/-- `replyline`: apply the header setters named on a REPLY line. -/
def replyline (parse : List Char) (e : Entry) : Except (List Char) Entry :=
  replylineF (parse.length + 1) parse e

/-- `adjustline`, fuelled like `matchlineF`: only `copy_id` is recognized. -/
def adjustlineF (fuel : Nat) (parse : List Char) (e : Entry) : Except (List Char) Entry :=
  match fuel with
  | 0 => .error parse
  | fuel + 1 =>
    match parse with
    | [] => .ok e
    | c :: _ =>
      if isendline c then .ok e
      else match str_keyword parse "copy_id".toList with
      | some rest => adjustlineF fuel rest { e with copy_id := true }
      | none => .error parse

/-- `adjustline`: apply an ADJUST line. -/
def adjustline (parse : List Char) (e : Entry) : Except (List Char) Entry :=
  adjustlineF (parse.length + 1) parse e

/-! ### Data-file parser -/

/-- The four record sections a SECTION directive can target
(`ldns_pkt_section`). -/
inductive PktSection where
  | question : PktSection
  | answer : PktSection
  | authority : PktSection
  | additional : PktSection
deriving Repr, DecidableEq

/-- `ldns_pkt_push_rr`: append a record to the named section. -/
def ldns_pkt_push_rr (p : Pkt) (s : PktSection) (rr : Rr) : Pkt :=
  match s with
  | .question => { p with question := p.question ++ [rr] }
  | .answer => { p with answer := p.answer ++ [rr] }
  | .authority => { p with authority := p.authority ++ [rr] }
  | .additional => { p with additional := p.additional ++ [rr] }

/-- Modelled from the spec: the interface of the external protocol codec
("decode bytes → message", "encode message → bytes", domain-name parsing for
`$ORIGIN`, and record-text parsing for record lines, which takes the current
default ttl, origin and previous-record name and returns the record plus the
updated previous-record name).  The verified code is parametric in it. -/
structure Codec where
  str2dname : List Char → Except (List Char) Dname
  rrFromStr : List Char → Nat → Option Dname → Option Dname →
    Except (List Char) (Rr × Option Dname)
  wire2pkt : List Nat → Except (List Char) Pkt
  pkt2wire : Pkt → Except (List Char) (List Nat)

/-- A fatal parse error: the `error(...)` calls of the parser carry the file
name and line number; the ones inside the directive interpreters carry only
a message. -/
structure PErr where
  file : Option (List Char)
  lineno : Option Nat
  msg : List Char
deriving Repr, DecidableEq

/-- The parser's state during `read_datafile`: the completed entries in file
order, the currently open entry (the C `current` pointer; the open entry is
spliced into the output list on return), the line counter, and the
file-scoped parse state (target section, default ttl, origin,
previous-record name) plus the completed-entry counter. -/
structure PState where
  completed : List Entry
  current : Option Entry
  lineno : Nat
  add_section : PktSection
  default_ttl : Nat
  origin : Option Dname
  prev_rr : Option Dname
  entry_num : Nat
deriving Repr, DecidableEq

/-- The state at the top of `read_datafile`. -/
def initState : PState :=
  { completed := [], current := none, lineno := 0,
    add_section := .question, default_ttl := 0,
    origin := none, prev_rr := none, entry_num := 0 }

/-- `get_origin`: snip the name token up to whitespace/end-of-content and
decode it via the external codec; failure is fatal with file and line. -/
def get_origin (c : Codec) (name : List Char) (lineno : Nat) (parse : List Char) :
    Except PErr Dname :=
  match c.str2dname (parse.takeWhile (fun ch => !isspaceC ch && !isendline ch)) with
  | .ok d => .ok d
  | .error m => .error { file := some name, lineno := some lineno, msg := m }

/-- Process one line of the data file (the body of the `while(fgets(...))`
loop of `read_datafile`); `st.lineno` has already been incremented for this
line. -/
def stepLine (c : Codec) (name : List Char) (st : PState) (line : List Char) :
    Except PErr PState :=
  let parse := line.dropWhile isspaceC
  if isendl parse then .ok st
  else match str_keyword parse "ENTRY_BEGIN".toList with
  | some _ =>
    match st.current with
    | some _ =>
      .error { file := some name, lineno := some st.lineno,
               msg := "previous entry does not ENTRY_END".toList }
    | none => .ok { st with current := some new_entry }
  | none => match str_keyword parse "$ORIGIN".toList with
  | some rest =>
    match get_origin c name st.lineno rest with
    | .error e => .error e
    | .ok d => .ok { st with origin := some d }
  | none => match str_keyword parse "$TTL".toList with
  | some rest => .ok { st with default_ttl := u16cast (atoiInt rest) }
  | none =>
    match st.current with
    | none =>
      .error { file := some name, lineno := some st.lineno,
               msg := "expected ENTRY_BEGIN".toList }
    | some cur =>
      match str_keyword parse "MATCH".toList with
      | some rest =>
        match matchline rest cur with
        | .error m => .error { file := none, lineno := none, msg := m }
        | .ok cur' => .ok { st with current := some cur' }
      | none => match str_keyword parse "REPLY".toList with
      | some rest =>
        match replyline rest cur with
        | .error m => .error { file := none, lineno := none, msg := m }
        | .ok cur' => .ok { st with current := some cur' }
      | none => match str_keyword parse "ADJUST".toList with
      | some rest =>
        match adjustline rest cur with
        | .error m => .error { file := none, lineno := none, msg := m }
        | .ok cur' => .ok { st with current := some cur' }
      | none => match str_keyword parse "SECTION".toList with
      | some rest =>
        match str_keyword rest "QUESTION".toList with
        | some _ => .ok { st with add_section := .question }
        | none => match str_keyword rest "ANSWER".toList with
        | some _ => .ok { st with add_section := .answer }
        | none => match str_keyword rest "AUTHORITY".toList with
        | some _ => .ok { st with add_section := .authority }
        | none => match str_keyword rest "ADDITIONAL".toList with
        | some _ => .ok { st with add_section := .additional }
        | none =>
          .error { file := some name, lineno := some st.lineno,
                   msg := "bad section".toList }
      | none => match str_keyword parse "ENTRY_END".toList with
      | some _ =>
        .ok { st with current := none, completed := st.completed ++ [cur],
                      entry_num := st.entry_num + 1 }
      | none =>
        match c.rrFromStr parse st.default_ttl st.origin st.prev_rr with
        | .error m => .error { file := some name, lineno := some st.lineno, msg := m }
        | .ok (rr, prev') =>
          .ok { st with
                current := some { cur with reply := ldns_pkt_push_rr cur.reply st.add_section rr },
                prev_rr := prev' }

/-- Run the `fgets` loop over the remaining lines, incrementing the line
counter before each line as the source does. -/
def runLines (c : Codec) (name : List Char) : PState → List (List Char) →
    Except PErr PState
  | st, [] => .ok st
  | st, l :: ls =>
    match stepLine c name { st with lineno := st.lineno + 1 } l with
    | .error e => .error e
    | .ok st' => runLines c name st' ls

/-- `read_datafile`: run the parser over the file's lines; the returned list
is the linked list built at each `ENTRY_BEGIN` (so a still-open entry is
included at its position at end of file), paired with the completed-entry
counter printed at the end. -/
def read_datafile (c : Codec) (name : List Char) (lines : List (List Char)) :
    Except PErr (List Entry × Nat) :=
  (runLines c name initState lines).map
    (fun st => (st.completed ++ st.current.toList, st.entry_num))

/-! ### Request dispatcher -/

/-- Size of the inbound buffer (`INBUF_SIZE`). -/
def INBUF_SIZE : Nat := 4096

/-- Modelled from the spec: `ldns_pkt2wire` applied to the possibly-absent
answer message.  The spec gives the codec's encoding for messages only
("encode message → bytes") and states that a no-match request produces no
outbound bytes, so an absent message encodes to nothing. -/
def pkt2wire_opt (c : Codec) : Option Pkt → Option (List Nat)
  | none => none
  | some p => (c.pkt2wire p).toOption

/-- `handle_query`: decode the inbound bytes, find the matching entry, build
and encode the answer; `none` means the request is dropped with no outbound
bytes (logging is not modelled). -/
def handle_query (c : Codec) (entries : List Entry) (inbuf : List Nat)
    (transport : TransportType) : Option (List Nat) :=
  match c.wire2pkt inbuf with
  | .error _ => none
  | .ok query_pkt => pkt2wire_opt c (get_answer entries query_pkt transport)

/-- `handle_udp`: one datagram in; the value is the datagram sent back
(`none`: nothing is sent). -/
def handle_udp (c : Codec) (entries : List Entry) (inbuf : List Nat) :
    Option (List Nat) :=
  handle_query c entries inbuf .transport_udp

/-- The 2-byte big-endian length framing written before a stream reply
(`htons` of the answer size narrowed to `uint16_t`). -/
def tcpFrame (n : Nat) : List Nat := [n % 65536 / 256, n % 256]

/-- `handle_tcp`: the accepted connection's inbound byte stream; the value
is the byte sequence written back (`none`: the connection is closed with
nothing sent).  A declared length `>= INBUF_SIZE` is rejected before any
payload is read or the pipeline runs; otherwise exactly the declared number
of payload bytes feed the pipeline. -/
def handle_tcp (c : Codec) (entries : List Entry) (stream : List Nat) :
    Option (List Nat) :=
  match stream with
  | b0 :: b1 :: rest =>
    if b0 * 256 + b1 ≥ INBUF_SIZE then none
    else
      match handle_query c entries (rest.take (b0 * 256 + b1)) .transport_tcp with
      | none => none
      | some outbuf => some (tcpFrame outbuf.length ++ outbuf)
  | _ => none

/-- A concrete codec instance used to evaluate the verified functions on
closed inputs: names parse to a single label, record text parses to a fixed
record carrying the ttl it was handed, any byte string decodes to the empty
packet, and any packet encodes to a single zero byte. -/
def trivCodec : Codec :=
  { str2dname := fun s => .ok [s],
    rrFromStr := fun _ ttl _ prev => .ok ({ owner := [], rrtype := 0, ttl := ttl, rdfs := [] }, prev),
    wire2pkt := fun _ => .ok ldns_pkt_new,
    pkt2wire := fun _ => .ok [0] }

/-! ### Theorems -/

/-- The conjunction of the five predicate conjuncts is exactly the negation
of the five skip tests of `find_match`'s loop body. -/
theorem entryMatches_eq_not_skips (p : Entry) (q : Pkt) (t : TransportType) :
    entryMatches p q t =
      (!(p.match_opcode && (q.opcode != p.reply.opcode)) &&
       !(p.match_qtype && (get_qtype q != get_qtype p.reply)) &&
       !(p.match_qname && qname_skip q p.reply) &&
       !(p.match_serial && (get_serial p.reply != p.ixfr_soa_serial)) &&
       !((p.match_transport != .transport_any) && (p.match_transport != t))) := by
  simp only [entryMatches, match_opcode_cond, match_qtype_cond, match_qname_cond,
    match_serial_cond, match_transport_cond, bne, Bool.not_and, Bool.not_not]

/-- C1: for every entry list, inbound message and transport, the matcher
returns exactly the first entry in file (list) order whose active predicates
all hold — inactive predicates vacuously true — skipping every entry with an
unsatisfied active predicate. -/
theorem find_match_is_first_conjunction_match (entries : List Entry) (q : Pkt)
    (t : TransportType) :
    find_match entries q t = entries.find? (fun e => entryMatches e q t) := by
  induction entries with
  | nil => rfl
  | cons p rest ih =>
    rw [find_match, List.find?_cons]
    rw [entryMatches_eq_not_skips]
    by_cases h1 : (p.match_opcode && (q.opcode != p.reply.opcode)) = true
    · simp [h1, ih]
    · simp only [Bool.not_eq_true] at h1
      by_cases h2 : (p.match_qtype && (get_qtype q != get_qtype p.reply)) = true
      · simp [h1, h2, ih]
      · simp only [Bool.not_eq_true] at h2
        by_cases h3 : (p.match_qname && qname_skip q p.reply) = true
        · simp [h1, h2, h3, ih]
        · simp only [Bool.not_eq_true] at h3
          by_cases h4 : (p.match_serial && (get_serial p.reply != p.ixfr_soa_serial)) = true
          · simp [h1, h2, h3, h4, ih]
          · simp only [Bool.not_eq_true] at h4
            by_cases h5 : ((p.match_transport != .transport_any) &&
                (p.match_transport != t)) = true
            · simp [h1, h2, h3, h4, h5, ih]
            · simp only [Bool.not_eq_true] at h5
              simp [h1, h2, h3, h4, h5]

/-- C2: an active serial predicate holds exactly when the SOA serial read
from the first authority-section record of the canned reply equals the
stored literal; the serial is 0 when that section has no first record or
the record has no rdata field 2; and the conjunct's value never depends on
the inbound message. -/
theorem serial_match_uses_reply_serial (e : Entry) (q q' : Pkt)
    (h : e.match_serial = true) :
    (match_serial_cond e q = true ↔ get_serial e.reply = e.ixfr_soa_serial)
    ∧ match_serial_cond e q = match_serial_cond e q'
    ∧ (e.reply.authority.head? = none → get_serial e.reply = 0)
    ∧ (∀ rr, e.reply.authority.head? = some rr → rr.rdfs.get? 2 = none →
        get_serial e.reply = 0)
    ∧ (∀ rr v, e.reply.authority.head? = some rr → rr.rdfs.get? 2 = some v →
        get_serial e.reply = v) := by
  refine ⟨by simp [match_serial_cond, h], rfl, ?_, ?_, ?_⟩
  · intro hh
    simp [get_serial, hh]
  · intro rr hh h2
    simp only [List.get?_eq_getElem?] at h2
    simp [get_serial, hh, h2]
  · intro rr v hh h2
    simp only [List.get?_eq_getElem?] at h2
    simp [get_serial, hh, h2]

/-- A concrete entry whose serial predicate is active with literal 42 and
whose canned authority SOA has serial 42 in rdata field 2. -/
def c2entry : Entry :=
  { new_entry with
    match_serial := true, ixfr_soa_serial := 42,
    reply := { ldns_pkt_new with
               authority := [{ owner := [], rrtype := 6, ttl := 0, rdfs := [1, 2, 42] }] } }

theorem serial_match_uses_reply_serial_witness :
    c2entry.match_serial = true ∧
      (match_serial_cond c2entry ldns_pkt_new = true ↔
        get_serial c2entry.reply = c2entry.ixfr_soa_serial) :=
  ⟨rfl, (serial_match_uses_reply_serial c2entry ldns_pkt_new ldns_pkt_new rfl).1⟩

/-- C3: on a match, the response builder returns a clone of the canned
reply whose id is the inbound id when `copy_id` is set and the canned id
otherwise; every other field of the clone equals the corresponding field of
the canned reply, and the stored canned reply value is untouched (cloning
is a copy and the id overwrite is a functional update on the copy). -/
theorem get_answer_clone_and_id (entries : List Entry) (q : Pkt) (t : TransportType)
    (e : Entry) (h : find_match entries q t = some e) :
    ∃ a, get_answer entries q t = some a
      ∧ a.id = (if e.copy_id then q.id else e.reply.id)
      ∧ a.opcode = e.reply.opcode ∧ a.rcode = e.reply.rcode
      ∧ a.qr = e.reply.qr ∧ a.aa = e.reply.aa ∧ a.tc = e.reply.tc
      ∧ a.rd = e.reply.rd ∧ a.cd = e.reply.cd ∧ a.ra = e.reply.ra ∧ a.ad = e.reply.ad
      ∧ a.question = e.reply.question ∧ a.answer = e.reply.answer
      ∧ a.authority = e.reply.authority ∧ a.additional = e.reply.additional
      ∧ ldns_pkt_set_id a e.reply.id = e.reply
      ∧ ldns_pkt_clone e.reply = e.reply := by
  refine ⟨if e.copy_id then ldns_pkt_set_id (ldns_pkt_clone e.reply) q.id
          else ldns_pkt_clone e.reply, ?_⟩
  cases hc : e.copy_id <;>
    simp [get_answer, h, hc, ldns_pkt_clone, ldns_pkt_set_id]

/-- A concrete wildcard entry with `copy_id` set and canned id 7. -/
def c3entry : Entry :=
  { new_entry with copy_id := true, reply := { ldns_pkt_new with id := 7 } }

/-- A concrete inbound query with id 9. -/
def c3query : Pkt := { ldns_pkt_new with id := 9 }

theorem get_answer_clone_and_id_witness :
    find_match [c3entry] c3query .transport_udp = some c3entry ∧
      ∃ a, get_answer [c3entry] c3query .transport_udp = some a
        ∧ a.id = (if c3entry.copy_id then c3query.id else c3entry.reply.id)
        ∧ a.opcode = c3entry.reply.opcode ∧ a.rcode = c3entry.reply.rcode
        ∧ a.qr = c3entry.reply.qr ∧ a.aa = c3entry.reply.aa ∧ a.tc = c3entry.reply.tc
        ∧ a.rd = c3entry.reply.rd ∧ a.cd = c3entry.reply.cd ∧ a.ra = c3entry.reply.ra
        ∧ a.ad = c3entry.reply.ad
        ∧ a.question = c3entry.reply.question ∧ a.answer = c3entry.reply.answer
        ∧ a.authority = c3entry.reply.authority ∧ a.additional = c3entry.reply.additional
        ∧ ldns_pkt_set_id a c3entry.reply.id = c3entry.reply
        ∧ ldns_pkt_clone c3entry.reply = c3entry.reply :=
  ⟨rfl, get_answer_clone_and_id [c3entry] c3query .transport_udp c3entry rfl⟩

/-- C7: with the qtype predicate active, a side with no first question
compares as type 0 (so two questionless messages satisfy the conjunct, which
is exactly type equality); with the qname predicate active, a missing first
question on either side makes the conjunct false, and with both present it
holds exactly on case-insensitive domain-name equality. -/
theorem qtype_qname_predicate_semantics (e : Entry) (q : Pkt) :
    (e.match_qtype = true →
      (match_qtype_cond e q = (get_qtype q == get_qtype e.reply))
      ∧ (q.question.head? = none → e.reply.question.head? = none →
          match_qtype_cond e q = true))
    ∧ (q.question.head? = none → get_qtype q = 0)
    ∧ (e.match_qname = true →
      ((get_owner q = none ∨ get_owner e.reply = none) → match_qname_cond e q = false)
      ∧ (∀ a b, get_owner q = some a → get_owner e.reply = some b →
          (match_qname_cond e q = true ↔ dname_ci_eq a b = true))) := by
  refine ⟨fun ht => ⟨by simp [match_qtype_cond, ht], fun hq hr => ?_⟩,
          fun hq => by simp [get_qtype, hq], fun hn => ⟨fun hor => ?_, fun a b ha hb => ?_⟩⟩
  · simp [match_qtype_cond, ht, get_qtype, hq, hr]
  · rcases hor with hor | hor <;>
      simp [match_qname_cond, hn, qname_skip, hor]
  · by_cases hl : lowerDname a = lowerDname b <;>
      simp [match_qname_cond, hn, qname_skip, ha, hb, ldns_dname_compare, dname_ci_eq, hl]

/-- A concrete entry with qtype and qname active, canned question owner
`EXAMPLE.` of type 1. -/
def c7entry : Entry :=
  { new_entry with
    match_qtype := true, match_qname := true,
    reply := { ldns_pkt_new with
               question := [{ owner := ["EXAMPLE".toList], rrtype := 1, ttl := 0, rdfs := [] }] } }

/-- A concrete inbound query asking for `example.` type 1. -/
def c7query : Pkt :=
  { ldns_pkt_new with
    question := [{ owner := ["example".toList], rrtype := 1, ttl := 0, rdfs := [] }] }

theorem qtype_qname_predicate_semantics_witness :
    c7entry.match_qtype = true ∧ c7entry.match_qname = true ∧
      (match_qtype_cond c7entry c7query = (get_qtype c7query == get_qtype c7entry.reply)) ∧
      (match_qname_cond c7entry c7query = true ↔
        dname_ci_eq ["example".toList] ["EXAMPLE".toList] = true) :=
  ⟨rfl, rfl, ((qtype_qname_predicate_semantics c7entry c7query).1 rfl).1,
    ((qtype_qname_predicate_semantics c7entry c7query).2.2 rfl).2
      ["example".toList] ["EXAMPLE".toList] rfl rfl⟩

/-- The counterexample file for the target-section claim: the first entry
switches the target section to ANSWER; a second entry is then opened. -/
def c4lines : List (List Char) :=
  ["ENTRY_BEGIN".toList, "SECTION ANSWER".toList, "ENTRY_END".toList, "ENTRY_BEGIN".toList]

/-- C4 counterexample: right after the second `ENTRY_BEGIN` of `c4lines`
the open entry's target section is still ANSWER, not QUESTION — the parser
never resets `add_section` when an entry is opened. -/
theorem section_persists_into_next_entry :
    (runLines trivCodec "data".toList initState c4lines).toOption.map
        (fun st => (st.add_section, st.current.isSome)) = some (.answer, true)
    ∧ PktSection.answer ≠ PktSection.question := by
  exact ⟨rfl, by decide⟩

/-- C4 (amended): the target section is file-scoped state: it is QUESTION at
the start of the file and any line that is not a SECTION directive — in
particular an `ENTRY_BEGIN` line — leaves it unchanged, so at the moment a
new entry is opened it is whatever the last SECTION directive set. -/
theorem section_is_file_scoped (c : Codec) (name : List Char) (st st' : PState)
    (line : List Char) (hok : stepLine c name st line = .ok st')
    (hline : str_keyword (line.dropWhile isspaceC) "SECTION".toList = none) :
    st'.add_section = st.add_section ∧ initState.add_section = .question := by
  refine ⟨?_, rfl⟩
  simp only [stepLine, hline] at hok
  repeat' split at hok
  all_goals first
  | (cases hok; rfl)
  | (exact Except.noConfusion hok)

/-- The state after a lone `ENTRY_BEGIN` line. -/
def entryBeginSt : PState := { initState with lineno := 0, current := some new_entry }

theorem section_is_file_scoped_witness :
    stepLine trivCodec "data".toList initState "ENTRY_BEGIN".toList = .ok entryBeginSt
    ∧ str_keyword ("ENTRY_BEGIN".toList.dropWhile isspaceC) "SECTION".toList = none
    ∧ (entryBeginSt.add_section = initState.add_section
        ∧ initState.add_section = .question) :=
  ⟨rfl, rfl,
    section_is_file_scoped trivCodec "data".toList initState entryBeginSt
      "ENTRY_BEGIN".toList rfl rfl⟩

/-- C6: an `ENTRY_BEGIN` line while an entry is open is a fatal parse error
carrying the file name and line number; any non-comment line that is not
`ENTRY_BEGIN`/`$ORIGIN`/`$TTL` — in particular every MATCH, REPLY, ADJUST,
SECTION, ENTRY_END and record line — read while no entry is open is the
fatal "expected ENTRY_BEGIN" error, also with file name and line number; a
failing line aborts the run with its error, and an aborted run produces no
entry list (`read_datafile` returns the error). -/
theorem entry_nesting_fatal_errors (c : Codec) (name : List Char) (st : PState)
    (line : List Char) (lines : List (List Char)) :
    (isendl (line.dropWhile isspaceC) = false →
      (str_keyword (line.dropWhile isspaceC) "ENTRY_BEGIN".toList).isSome →
      st.current.isSome →
      stepLine c name st line =
        .error { file := some name, lineno := some st.lineno,
                 msg := "previous entry does not ENTRY_END".toList })
    ∧ (isendl (line.dropWhile isspaceC) = false →
      str_keyword (line.dropWhile isspaceC) "ENTRY_BEGIN".toList = none →
      str_keyword (line.dropWhile isspaceC) "$ORIGIN".toList = none →
      str_keyword (line.dropWhile isspaceC) "$TTL".toList = none →
      st.current = none →
      stepLine c name st line =
        .error { file := some name, lineno := some st.lineno,
                 msg := "expected ENTRY_BEGIN".toList })
    ∧ (∀ e, stepLine c name { st with lineno := st.lineno + 1 } line = .error e →
        runLines c name st (line :: lines) = .error e)
    ∧ (∀ e, runLines c name initState (line :: lines) = .error e →
        read_datafile c name (line :: lines) = .error e) := by
  refine ⟨?_, ?_, ?_, ?_⟩
  · intro h1 h2 h3
    obtain ⟨r, hr⟩ := Option.isSome_iff_exists.mp h2
    obtain ⟨cur, hc⟩ := Option.isSome_iff_exists.mp h3
    simp only [stepLine, hr, hc]
    simp [h1]
  · intro h1 h2 h3 h4 h5
    simp only [stepLine, h2, h3, h4, h5]
    simp [h1]
  · intro e he
    simp [runLines, he]
  · intro e he
    simp [read_datafile, he, Except.map]

/-- A parser state with an open entry. -/
def openEntrySt : PState := { initState with current := some new_entry }

theorem entry_nesting_fatal_errors_witness :
    stepLine trivCodec "data".toList openEntrySt "ENTRY_BEGIN".toList =
      .error { file := some "data".toList, lineno := some openEntrySt.lineno,
               msg := "previous entry does not ENTRY_END".toList }
    ∧ stepLine trivCodec "data".toList initState "MATCH qname".toList =
      .error { file := some "data".toList, lineno := some initState.lineno,
               msg := "expected ENTRY_BEGIN".toList } :=
  ⟨(entry_nesting_fatal_errors trivCodec "data".toList openEntrySt
      "ENTRY_BEGIN".toList []).1 rfl rfl rfl,
    (entry_nesting_fatal_errors trivCodec "data".toList initState
      "MATCH qname".toList []).2.1 rfl rfl rfl rfl rfl⟩

/-- The `$TTL` line exhibiting the 16-bit truncation, followed by an entry
with one record line; `trivCodec` stores the default ttl it is handed into
the parsed record. -/
def c8lines : List (List Char) :=
  ["$TTL 86400".toList, "ENTRY_BEGIN".toList, "www.example.com. IN A 1.2.3.4".toList]

/-- C8: evaluating the parser at `$TTL 86400` — the code narrows the parsed
value through `uint16_t`, so the stored default ttl is 86400 mod 2^16 =
20864, not 86400, and 20864 is what a record line parsed afterwards is
handed as its default ttl. -/
theorem ttl_truncated_to_16_bits :
    stepLine trivCodec "data".toList initState "$TTL 86400".toList =
      .ok { initState with default_ttl := 20864 }
    ∧ (20864 : Nat) ≠ 86400 ∧ 86400 % 65536 = 20864
    ∧ (runLines trivCodec "data".toList initState c8lines).toOption.map
        (fun st => st.current.map (fun e => e.reply.question.map Rr.ttl)) =
      some (some [20864]) := by
  exact ⟨rfl, by decide, rfl, rfl⟩

/-- `stepLine` preserves the invariant that the completed-entry counter
equals the number of completed entries. -/
theorem stepLine_preserves_entry_num (c : Codec) (name : List Char) (st st' : PState)
    (line : List Char) (hok : stepLine c name st line = .ok st')
    (hinv : st.entry_num = st.completed.length) :
    st'.entry_num = st'.completed.length := by
  simp only [stepLine] at hok
  repeat' split at hok
  all_goals first
  | (cases hok; simp [hinv])
  | (exact Except.noConfusion hok)

/-- `runLines` preserves the completed-counter invariant. -/
theorem runLines_preserves_entry_num (c : Codec) (name : List Char) :
    ∀ (lines : List (List Char)) (st st' : PState),
      runLines c name st lines = .ok st' → st.entry_num = st.completed.length →
      st'.entry_num = st'.completed.length := by
  intro lines
  induction lines with
  | nil =>
    intro st st' h hi
    cases h
    exact hi
  | cons l ls ih =>
    intro st st' h hi
    rw [runLines] at h
    cases hstep : stepLine c name { st with lineno := st.lineno + 1 } l with
    | error e =>
      rw [hstep] at h
      exact Except.noConfusion h
    | ok st1 =>
      rw [hstep] at h
      exact ih st1 st' h (stepLine_preserves_entry_num c name _ st1 l hstep hi)

/-- C10: when parsing ends with an entry still open (its `ENTRY_END`
missing), `read_datafile` returns normally; the dangling entry — appended
to the output list when it was opened — is the last element of the returned
entry list, but the completed-entry counter printed at the end equals the
list length minus one: it does not count the dangling entry. -/
theorem dangling_entry_returned_not_counted (c : Codec) (name : List Char)
    (lines : List (List Char)) (st : PState) (cur : Entry)
    (hrun : runLines c name initState lines = .ok st)
    (hcur : st.current = some cur) :
    read_datafile c name lines = .ok (st.completed ++ [cur], st.entry_num)
    ∧ st.entry_num = st.completed.length
    ∧ (st.completed ++ [cur]).length = st.entry_num + 1
    ∧ (st.completed ++ [cur]).getLast? = some cur := by
  have hinv := runLines_preserves_entry_num c name lines initState st hrun rfl
  refine ⟨?_, hinv, by simp [hinv], by simp⟩
  simp [read_datafile, hrun, hcur, Except.map, Option.toList]

theorem dangling_entry_returned_not_counted_witness :
    runLines trivCodec "data".toList initState ["ENTRY_BEGIN".toList] =
      .ok { initState with lineno := 1, current := some new_entry }
    ∧ read_datafile trivCodec "data".toList ["ENTRY_BEGIN".toList] =
      .ok ([] ++ [new_entry], 0) :=
  ⟨rfl,
    (dangling_entry_returned_not_counted trivCodec "data".toList ["ENTRY_BEGIN".toList]
      { initState with lineno := 1, current := some new_entry } new_entry rfl rfl).1⟩

/-- C5: a decodable inbound query that matches no entry produces no
outbound bytes on either transport — the datagram handler sends nothing and
the stream handler closes the connection without writing. -/
theorem no_match_no_outbound (c : Codec) (entries : List Entry) (inbuf : List Nat)
    (q : Pkt) (hdec : c.wire2pkt inbuf = .ok q) :
    (find_match entries q .transport_udp = none →
      handle_udp c entries inbuf = none)
    ∧ (find_match entries q .transport_tcp = none →
      ∀ b0 b1 rest, b0 * 256 + b1 < INBUF_SIZE →
        rest.take (b0 * 256 + b1) = inbuf →
        handle_tcp c entries (b0 :: b1 :: rest) = none) := by
  constructor
  · intro hm
    simp [handle_udp, handle_query, hdec, get_answer, hm, pkt2wire_opt]
  · intro hm b0 b1 rest hlt htake
    simp only [handle_tcp, ge_iff_le, htake]
    rw [if_neg (by omega)]
    simp [handle_query, hdec, get_answer, hm, pkt2wire_opt]

theorem no_match_no_outbound_witness :
    trivCodec.wire2pkt [0] = .ok ldns_pkt_new
    ∧ find_match [] ldns_pkt_new .transport_udp = none
    ∧ handle_udp trivCodec [] [0] = none
    ∧ handle_tcp trivCodec [] [0, 1, 0] = none :=
  ⟨rfl, rfl,
    (no_match_no_outbound trivCodec [] [0] ldns_pkt_new rfl).1 rfl,
    (no_match_no_outbound trivCodec [] [0] ldns_pkt_new rfl).2 rfl 0 1 [0]
      (by decide) rfl⟩

/-- An entry list and stream for the boundary counterexample: a wildcard
entry that matches everything, and a stream declaring a length of exactly
4096 with 4096 payload bytes available. -/
def c9stream : List Nat := 16 :: 0 :: List.replicate 4096 0

/-- C9 counterexample: a declared length of exactly 4096 does not exceed the
4096-byte buffer capacity, yet the server rejects it (the guard is `>=`):
nothing is written even though the pipeline on those payload bytes would
have produced a reply. -/
theorem declared_length_4096_rejected :
    handle_tcp trivCodec [new_entry] c9stream = none
    ∧ ¬ (16 * 256 + 0 > INBUF_SIZE)
    ∧ handle_query trivCodec [new_entry] (List.replicate 4096 0) .transport_tcp =
        some [0] := by
  exact ⟨rfl, by decide, rfl⟩

/-- C9 (amended): the stream handler reads a 2-byte big-endian length prefix
and rejects the request — no pipeline, no reply — exactly when the declared
length is at least the 4096-byte buffer capacity; otherwise it feeds exactly
the declared number of payload bytes to the pipeline and frames any produced
answer with its own length prefix. -/
theorem tcp_length_prefix_framing (c : Codec) (entries : List Entry) (b0 b1 : Nat)
    (rest : List Nat) :
    (b0 * 256 + b1 ≥ INBUF_SIZE → handle_tcp c entries (b0 :: b1 :: rest) = none)
    ∧ (b0 * 256 + b1 < INBUF_SIZE →
        handle_tcp c entries (b0 :: b1 :: rest) =
          match handle_query c entries (rest.take (b0 * 256 + b1)) .transport_tcp with
          | none => none
          | some outbuf => some (tcpFrame outbuf.length ++ outbuf)) := by
  constructor
  · intro hge
    simp [handle_tcp, hge]
  · intro hlt
    simp only [handle_tcp, ge_iff_le]
    rw [if_neg (by omega)]

theorem tcp_length_prefix_framing_witness :
    (16 * 256 + 0 ≥ INBUF_SIZE) ∧ handle_tcp trivCodec [] [16, 0] = none :=
  ⟨by decide, (tcp_length_prefix_framing trivCodec [] 16 0 []).1 (by decide)⟩

end LdnsTestns
